import Mathlib

/-
Shallow embedding of the intent-routing and tool-augmented conversation
engine of the helpdesk chat backend:

  backend/orchestration/intent_detection.py   (UserIntentDetector, Intent)
  backend/orchestration/orchestrator.py       (Orchestrator.run)
  backend/orchestration/chat.py               (Chat.create / Chat.invoke)
  backend/orchestration/plugins/search_plugin.py       (AzureAISearchPlugin)
  backend/orchestration/plugins/helix_proxy_plugin.py  (HelixProxyPlugin)

External collaborators (the Azure OpenAI client, `json.loads`, the search
index pages, the semantic-kernel streaming generator) are passed in as
explicit oracle parameters, so every definition below is a pure, executable
function of the source code's control flow over those inputs.  Python
exceptions are modelled with `Except PyErr`; `float` scores are modelled
with `ℚ`.
-/

/-- The Python exception kinds that the embedded code can raise. -/
inductive PyErr where
  | typeError
  | valueError
  | keyError
  | indexError
  | attributeError
  | unboundLocalError
  | apiError
  | jsonDecodeError
deriving DecidableEq

/-- Python `(x or 0)` applied to an `Optional[float]`: `None` gives `0`,
and `0.0 or 0` is also numerically `0`, so this is `Option.getD · 0`. -/
def pyOr0 (x : Option ℚ) : ℚ := x.getD 0

/-- The score filter shared by `AzureAISearchPlugin.__search_internal`
(search_plugin.py lines 127-134) and `HelixProxyPlugin.get_ticket_templates`
(helix_proxy_plugin.py lines 74-81):
`(doc.score or 0) >= (minimum_search_score or 0) and
 (doc.reranker_score or 0) >= (minimum_reranker_score or 0)`. -/
def scoreQualifies (score reranker_score minSearch minReranker : Option ℚ) : Bool :=
  decide (pyOr0 minSearch ≤ pyOr0 score) && decide (pyOr0 minReranker ≤ pyOr0 reranker_score)

/-- `Document` of search_plugin.py. -/
structure SearchDoc where
  id : Option String
  parent_id : Option String
  content : Option String
  title : Option String
  score : Option ℚ
  reranker_score : Option ℚ
deriving DecidableEq

/-- `Document` of helix_proxy_plugin.py (a ticket template). -/
structure TemplateDoc where
  id : Option String
  template_name : Option String
  category_tier1 : Option String
  category_tier2 : Option String
  category_tier3 : Option String
  description : Option String
  detailed_description : Option String
  priority : Option String
  urgency : Option String
  assigned_group : Option String
  assigned_group_id : Option String
  score : Option ℚ
  reranker_score : Option ℚ
deriving DecidableEq

/-- The page loop shared by `AzureAISearchPlugin.__search_internal` and
`HelixProxyPlugin.get_ticket_templates`: `documents` accumulates every
document of every page, and `qualified_documents` is (re)assigned inside
the per-page iteration to the filter of the accumulated `documents`.
The second accumulator is `none` while `qualified_documents` is still
unassigned (its Python state before the first page). -/
def collectLoop {α : Type} (q : α → Bool) :
    List (List α) → List α → Option (List α) → Option (List α)
  | [], _, qualified => qualified
  | page :: rest, documents, _ =>
      collectLoop q rest (documents ++ page) (some ((documents ++ page).filter q))

/-- Common body of both paged search functions: iterate the pages, then
`return qualified_documents`; if no page was iterated the name is unbound
and Python raises `UnboundLocalError`. -/
def collectAndFilter {α : Type} (score reranker_score : α → Option ℚ)
    (minSearch minReranker : Option ℚ) (pages : List (List α)) : Except PyErr (List α) :=
  match collectLoop (fun d => scoreQualifies (score d) (reranker_score d) minSearch minReranker)
      pages [] none with
  | none => Except.error PyErr.unboundLocalError
  | some qualified => Except.ok qualified

/-- `AzureAISearchPlugin.__search_internal` (search_plugin.py lines 77-136),
restricted to its result processing: the external search call's paged
results are the `pages` oracle. -/
def AzureAISearchPlugin.searchInternal
    (minimum_search_score minimum_reranker_score : Option ℚ)
    (pages : List (List SearchDoc)) : Except PyErr (List SearchDoc) :=
  collectAndFilter SearchDoc.score SearchDoc.reranker_score
    minimum_search_score minimum_reranker_score pages

/-- `HelixProxyPlugin.get_ticket_templates` (helix_proxy_plugin.py lines
35-83), restricted to its result processing: the external template search
call's paged results are the `pages` oracle. -/
def HelixProxyPlugin.get_ticket_templates
    (minimum_search_score minimum_reranker_score : Option ℚ)
    (pages : List (List TemplateDoc)) : Except PyErr (List TemplateDoc) :=
  collectAndFilter TemplateDoc.score TemplateDoc.reranker_score
    minimum_search_score minimum_reranker_score pages

theorem collectLoop_of_ne_nil {α : Type} (q : α → Bool) :
    ∀ (pages : List (List α)) (documents : List α) (init : Option (List α)),
      pages ≠ [] →
      collectLoop q pages documents init = some ((documents ++ pages.flatten).filter q)
  | [], _, _, h => absurd rfl h
  | page :: rest, documents, init, _ => by
      cases rest with
      | nil => simp [collectLoop]
      | cons p rs =>
          rw [collectLoop, collectLoop_of_ne_nil q (p :: rs) (documents ++ page) _ (by simp)]
          simp [List.flatten]

theorem collectAndFilter_of_ne_nil {α : Type} (score reranker_score : α → Option ℚ)
    (minSearch minReranker : Option ℚ) (pages : List (List α)) (h : pages ≠ []) :
    collectAndFilter score reranker_score minSearch minReranker pages =
      Except.ok (pages.flatten.filter
        (fun d => scoreQualifies (score d) (reranker_score d) minSearch minReranker)) := by
  unfold collectAndFilter
  rw [collectLoop_of_ne_nil _ pages [] none h]
  simp

theorem collectAndFilter_mem {α : Type} (score reranker_score : α → Option ℚ)
    (minSearch minReranker : ℚ) (pages : List (List α)) (qualified : List α) (d : α)
    (hp : pages ≠ [])
    (hq : collectAndFilter score reranker_score (some minSearch) (some minReranker) pages =
      Except.ok qualified) :
    (∀ s, score d = some s → s < minSearch → d ∉ qualified) ∧
    (∀ r, reranker_score d = some r → r < minReranker → d ∉ qualified) ∧
    (d ∈ pages.flatten → minSearch ≤ pyOr0 (score d) → minReranker ≤ pyOr0 (reranker_score d) →
      d ∈ qualified) := by
  rw [collectAndFilter_of_ne_nil score reranker_score _ _ pages hp] at hq
  have hqual : qualified = pages.flatten.filter
      (fun d => scoreQualifies (score d) (reranker_score d) (some minSearch) (some minReranker)) := by
    exact (Except.ok.injEq _ _).mp hq.symm
  subst hqual
  refine ⟨?_, ?_, ?_⟩
  · intro s hs hlt hmem
    rcases List.mem_filter.mp hmem with ⟨_, hqd⟩
    simp [scoreQualifies, pyOr0, hs] at hqd
    exact absurd hqd.1 (not_le.mpr hlt)
  · intro r hr hlt hmem
    rcases List.mem_filter.mp hmem with ⟨_, hqd⟩
    simp [scoreQualifies, pyOr0, hr] at hqd
    exact absurd hqd.2 (not_le.mpr hlt)
  · intro hmem hs hr
    refine List.mem_filter.mpr ⟨hmem, ?_⟩
    simp [scoreQualifies, pyOr0]
    exact ⟨hs, hr⟩

/-- `Intent` enumeration of intent_detection.py. -/
inductive Intent where
  | ANSWER_QUESTION
  | CREATE_TICKET
  | GET_TICKET_STATUS
deriving DecidableEq

/-- `Intent(value)`: the enum lookup raises `ValueError` (here: `none`) for
any string other than the three member values. -/
def Intent.ofString : String → Option Intent
  | "ANSWER_QUESTION" => some Intent.ANSWER_QUESTION
  | "CREATE_TICKET" => some Intent.CREATE_TICKET
  | "GET_TICKET_STATUS" => some Intent.GET_TICKET_STATUS
  | _ => none

/-- Python JSON values, as produced by `json.loads`. -/
inductive Json where
  | null
  | bool (b : Bool)
  | num (q : ℚ)
  | str (s : String)
  | arr (elems : List Json)
  | obj (entries : List (String × Json))

/-- One message dict of a `request_body["messages"]` list.  The inbound
messages carry `role`, `content` and (on assistant turns) an optional raw
JSON `context` string. -/
structure Message where
  role : String
  content : String
  context : Option String
deriving DecidableEq

/-- `system_instructions` of intent_detection.py.  Its exact prompt text is
opaque data to every verified property, so it is abbreviated here. -/
def system_instructions : String :=
  "You are an AI assistant that identifies the user intent from their request."

/-- One entry of the `messages` list built by `get_user_intent` and sent to
the classification model. -/
structure ClassifierMessage where
  role : String
  content : String
  context : Option Json

/-- The per-message body of the loop in `get_user_intent` (intent_detection.py
lines 51-68): an assistant message with a `context` key gets its context
parsed with `json.loads` and attached; every other message is forwarded
with just `role` and `content`.  No role is filtered out. -/
def classifyMsgOf (pj : String → Except PyErr Json) (m : Message) :
    Except PyErr ClassifierMessage :=
  match m.context with
  | some ctx =>
      if m.role = "assistant" then
        match pj ctx with
        | Except.ok j => Except.ok ⟨m.role, m.content, some j⟩
        | Except.error e => Except.error e
      else Except.ok ⟨m.role, m.content, none⟩
  | none => Except.ok ⟨m.role, m.content, none⟩

/-- The loop of `get_user_intent` over `request_messages`, in order; the
first `json.loads` failure aborts (it is caught by the surrounding `try`). -/
def classifierTail (pj : String → Except PyErr Json) :
    List Message → Except PyErr (List ClassifierMessage)
  | [] => Except.ok []
  | m :: ms =>
      match classifyMsgOf pj m with
      | Except.error e => Except.error e
      | Except.ok c =>
          match classifierTail pj ms with
          | Except.error e => Except.error e
          | Except.ok rest => Except.ok (c :: rest)

/-- The full `messages` list sent to the classification model: the fixed
system instruction followed by every inbound message. -/
def buildClassifierMessages (pj : String → Except PyErr Json)
    (request_messages : List Message) : Except PyErr (List ClassifierMessage) :=
  match classifierTail pj request_messages with
  | Except.error e => Except.error e
  | Except.ok rest => Except.ok (⟨"system", system_instructions, none⟩ :: rest)

/-- Python dict lookup on a parsed JSON object. -/
def jsonLookup (key : String) : List (String × Json) → Option Json
  | [] => none
  | (k, v) :: rest => if k = key then some v else jsonLookup key rest

/-- `as_json["intent"]` followed by `Intent(...)` (intent_detection.py line
85): indexing a non-object with a string key raises `TypeError`, a missing
key raises `KeyError`, and `Intent` applied to anything that is not one of
the three member strings raises `ValueError`. -/
def Json.intentField : Json → Except PyErr Intent
  | Json.obj entries =>
      match jsonLookup "intent" entries with
      | none => Except.error PyErr.keyError
      | some (Json.str s) =>
          match Intent.ofString s with
          | some i => Except.ok i
          | none => Except.error PyErr.valueError
      | some _ => Except.error PyErr.valueError
  | _ => Except.error PyErr.typeError

/-- The `try` block of `UserIntentDetector.get_user_intent` (intent_detection.py
lines 42-85).  `pj` is `json.loads`; `mc` is the single non-streaming,
temperature-0 chat-completion call, returning the (optional) content of
the first choice's message, or an error.  A `None` content makes
`.strip()` raise `AttributeError`. -/
def getUserIntentTry (pj : String → Except PyErr Json)
    (mc : List ClassifierMessage → Except PyErr (Option String))
    (request_messages : List Message) : Except PyErr Intent := do
  let messages ← buildClassifierMessages pj request_messages
  let contentOpt ← mc messages
  match contentOpt with
  | none => Except.error PyErr.attributeError
  | some c =>
      let as_json ← pj c.trim
      as_json.intentField

/-- `UserIntentDetector.get_user_intent` (intent_detection.py lines 33-91):
the whole body is wrapped in `try/except Exception`, and any failure
returns `Intent.ANSWER_QUESTION`. -/
def get_user_intent (pj : String → Except PyErr Json)
    (mc : List ClassifierMessage → Except PyErr (Option String))
    (request_messages : List Message) : Intent :=
  match getUserIntentTry pj mc request_messages with
  | Except.error _ => Intent.ANSWER_QUESTION
  | Except.ok intent => intent

/-- semantic-kernel `AuthorRole`. -/
inductive AuthorRole where
  | system
  | user
  | assistant
  | tool
deriving DecidableEq

/-- The provider-side streaming chunk carried in `inner_content`: its delta
content text, possibly absent (as it is on tool-call negotiation chunks). -/
structure ProviderChunk where
  content : Option String
deriving DecidableEq

/-- semantic-kernel `StreamingChatMessageContent` as observed by the loop in
`Chat.invoke`: author role, textual content, the function-call payloads the
message carries (non-empty exactly on tool-call negotiation steps), and the
raw provider chunk (`inner_content`), present when the message came straight
from the model provider. -/
structure StreamingChatMessageContent where
  role : AuthorRole
  content : String
  functionCalls : List String
  innerContent : Option ProviderChunk
deriving DecidableEq

/-- One item yielded by `kernel.invoke_stream` (after taking `message[0]`):
either a `StreamingChatMessageContent` or some other content type, which
the `isinstance` check rejects. -/
inductive StreamItem where
  | scmc (msg : StreamingChatMessageContent)
  | otherContent
deriving DecidableEq

/-- The opaque `history_metadata` mapping of the inbound request body. -/
abbrev HistoryMetadata := List (String × String)

/-- The inbound request body as read by the core: `messages` and the
optional `history_metadata` key (`request_body.get("history_metadata", {})`
substitutes the empty mapping when absent). -/
structure RequestBody where
  messages : List Message
  history_metadata : Option HistoryMetadata
deriving DecidableEq

/-- One streamed response fragment on the wire. -/
structure Fragment where
  deltaRole : String
  deltaContent : String
  history_metadata : HistoryMetadata
  end_turn : Option Bool
deriving DecidableEq

/-- Modelled from the spec: `format_stream_response` lives in
`backend/utils.py`, which is not among the provided sources.  Spec section 6
gives the wire shape it produces for a provider chunk:
`{delta: {role: "assistant", content: text}, history_metadata: mapping,
end_turn: boolean|null}`, with `history_metadata` taken verbatim from the
caller's argument. -/
def format_stream_response (chunk : ProviderChunk)
    (history_metadata : HistoryMetadata) (end_turn : Option Bool) : Fragment :=
  ⟨"assistant", chunk.content.getD "", history_metadata, end_turn⟩

/-- `system_message` of chat.py.  Its exact prompt text is opaque data to
every verified property, so it is abbreviated. -/
def Chat.system_message : String := "# System Instructions for AI Helpdesk Assistant"

/-- chat.py lines 198-200: drop every inbound message whose role is `tool`. -/
def Chat.filteredMessages (req : RequestBody) : List Message :=
  req.messages.filter (fun m => m.role ≠ "tool")

/-- One rebuilt `ChatHistory` entry. -/
structure HistoryMessage where
  role : String
  content : String
deriving DecidableEq

/-- chat.py lines 193-207: the rebuilt `ChatHistory` - the fixed system
message, then each remaining inbound message appended as an assistant or a
user message (any other role is skipped by the `if`/`elif`). -/
def Chat.rebuiltHistory (req : RequestBody) : List HistoryMessage :=
  ⟨"system", Chat.system_message⟩ ::
    (Chat.filteredMessages req).filterMap (fun m =>
      if m.role = "assistant" then some ⟨"assistant", m.content⟩
      else if m.role = "user" then some ⟨"user", m.content⟩
      else none)

/-- chat.py line 209: `user_input = filtered_messages[-1]["content"]`;
indexing an empty list raises `IndexError`. -/
def Chat.userInput (req : RequestBody) : Except PyErr String :=
  match (Chat.filteredMessages req).getLast? with
  | none => Except.error PyErr.indexError
  | some m => Except.ok m.content

/-- The per-item body of the `generate` loop (chat.py lines 219-234): a
fragment is yielded exactly when the item is a `StreamingChatMessageContent`
whose role is `ASSISTANT` and whose `inner_content` is truthy; the yielded
fragment is `format_stream_response(msg.inner_content, history_metadata,
None)`. -/
def Chat.fragmentOf (history_metadata : HistoryMetadata) :
    StreamItem → Option Fragment
  | StreamItem.scmc m =>
      if m.role = AuthorRole.assistant then
        match m.innerContent with
        | some chunk => some (format_stream_response chunk history_metadata none)
        | none => none
      else none
  | StreamItem.otherContent => none

/-- `Chat.invoke` (chat.py lines 189-235): rebuild the history, take the
latest filtered message's content as the user input (raising before any
generation call when there is none), then stream the filtered fragments of
the kernel's streaming generation, whose items are the `stream` oracle. -/
def Chat.invoke (req : RequestBody) (stream : List StreamItem) :
    Except PyErr (List Fragment) :=
  match Chat.userInput req with
  | Except.error e => Except.error e
  | Except.ok _ =>
      Except.ok (stream.filterMap (Chat.fragmentOf (req.history_metadata.getD [])))

/-- Number of required positional parameters of `Chat.create` besides `cls`
(chat.py line 160): `chat_id`, `token_provider`, `search_service`. -/
def Chat.createRequiredPositional : Nat := 3

/-- Number of positional arguments `Orchestrator.run` passes to
`Chat.create` (orchestrator.py line 67): just `"helpdesk_assistant"`. -/
def Orchestrator.createSuppliedPositional : Nat := 1

/-- Number of required positional parameters of `Chat.invoke` besides `self`
(chat.py lines 189-192): just `request_body`. -/
def Chat.invokeRequiredPositional : Nat := 1

/-- Number of positional arguments `Orchestrator.run` passes to
`chat.invoke` (orchestrator.py line 72): `execution_settings`,
`request_body`, `system_message`. -/
def Orchestrator.invokeSuppliedPositional : Nat := 3

/-- Python positional-call semantics: a call whose positional argument count
differs from the callee's required positional parameter count raises
`TypeError` without entering the body. -/
def pyCallArity {σ : Type} (required supplied : Nat) (call : Except PyErr σ) :
    Except PyErr σ :=
  if supplied = required then call else Except.error PyErr.typeError

/-- `Orchestrator.run` (orchestrator.py lines 51-77): classify the request's
messages, then either drive the ticket-oriented session (`Chat.create` +
`chat.invoke`, each called through Python positional-call semantics with
the argument counts appearing at the call sites) or return the stream of
the externally supplied `run_aoai_on_your_data_fn`.  The surrounding
`try/except` logs and re-raises, leaving the outcome unchanged.
`ticketSession` is the fragment stream the session would produce if the
calls reached it. -/
def Orchestrator.run {σ : Type} (pj : String → Except PyErr Json)
    (mc : List ClassifierMessage → Except PyErr (Option String))
    (req : RequestBody) (directFn : Except PyErr σ) (ticketSession : Except PyErr σ) :
    Except PyErr σ :=
  let intent := get_user_intent pj mc req.messages
  if intent = Intent.CREATE_TICKET ∨ intent = Intent.GET_TICKET_STATUS then
    pyCallArity Chat.createRequiredPositional Orchestrator.createSuppliedPositional
      (pyCallArity Chat.invokeRequiredPositional Orchestrator.invokeSuppliedPositional
        ticketSession)
  else directFn

/-- `HelixProxyPlugin.create_ticket` (helix_proxy_plugin.py lines 90-132):
the request payload it builds - `{"description": template_name}` -
forwards `template_name` verbatim. -/
def HelixProxyPlugin.createTicketPayload
    (template_name detailed_description : String) : List (String × String) :=
  [("description", template_name)]

/-- `HelixProxyPlugin.create_ticket` (helix_proxy_plugin.py lines 90-132):
the `requests.post` call is commented out, so the `try` body always returns
`json.dumps({"ticket_id": 12345, "status": "success"})` and the
`RequestException` handler (which would return `{"status": "error"}`) is
unreachable. -/
def HelixProxyPlugin.create_ticket
    (template_name detailed_description : String) : String :=
  "\x7b\"ticket_id\": 12345, \"status\": \"success\"\x7d"

/-- A `json.loads` oracle that rejects every string. -/
def pjRefuse : String → Except PyErr Json := fun _ => Except.error PyErr.jsonDecodeError

/-- A model-call oracle whose API call always errors. -/
def mcApiError : List ClassifierMessage → Except PyErr (Option String) :=
  fun _ => Except.error PyErr.apiError

/-- C1.  For every inbound message list (and every behaviour of `json.loads`
and of the classification model call), `get_user_intent` returns one of the
three closed intent values and never raises; whenever its `try` body fails
for any reason - model call error, malformed JSON, unrecognized label -
the result is exactly `ANSWER_QUESTION`, and an unrecognized label in an
otherwise well-formed `{"intent": ...}` object is such a failure
(`ValueError`). -/
theorem c1_get_user_intent_total_and_fails_open
    (pj : String → Except PyErr Json)
    (mc : List ClassifierMessage → Except PyErr (Option String))
    (request_messages : List Message) :
    (get_user_intent pj mc request_messages = Intent.ANSWER_QUESTION ∨
     get_user_intent pj mc request_messages = Intent.CREATE_TICKET ∨
     get_user_intent pj mc request_messages = Intent.GET_TICKET_STATUS) ∧
    (∀ e, getUserIntentTry pj mc request_messages = Except.error e →
      get_user_intent pj mc request_messages = Intent.ANSWER_QUESTION) ∧
    (∀ s, Intent.ofString s = none →
      Json.intentField (Json.obj [("intent", Json.str s)]) =
        Except.error PyErr.valueError) := by
  refine ⟨?_, ?_, ?_⟩
  · unfold get_user_intent
    cases getUserIntentTry pj mc request_messages with
    | error e => simp
    | ok i => cases i <;> simp
  · intro e h
    unfold get_user_intent
    rw [h]
  · intro s h
    simp [Json.intentField, jsonLookup, h]

/-- Witness for C1 at a concrete input: a failing model call makes the
`try` body error and the returned intent is `ANSWER_QUESTION`. -/
theorem c1_witness :
    getUserIntentTry pjRefuse mcApiError [] = Except.error PyErr.apiError ∧
    get_user_intent pjRefuse mcApiError [] = Intent.ANSWER_QUESTION :=
  ⟨rfl, (c1_get_user_intent_total_and_fails_open pjRefuse mcApiError []).2.1
    PyErr.apiError rfl⟩

theorem classifyMsgOf_role (pj : String → Except PyErr Json) (m : Message)
    (c : ClassifierMessage) (h : classifyMsgOf pj m = Except.ok c) :
    c.role = m.role := by
  unfold classifyMsgOf at h
  split at h
  · split at h
    · split at h
      · cases h; rfl
      · cases h
    · cases h; rfl
  · cases h; rfl

theorem classifierTail_roles (pj : String → Except PyErr Json) :
    ∀ (msgs : List Message) (l : List ClassifierMessage),
      classifierTail pj msgs = Except.ok l →
      l.map ClassifierMessage.role = msgs.map Message.role
  | [], l, h => by
      cases h
      rfl
  | m :: ms, l, h => by
      unfold classifierTail at h
      cases hc : classifyMsgOf pj m with
      | error e => rw [hc] at h; cases h
      | ok c =>
          rw [hc] at h
          cases hr : classifierTail pj ms with
          | error e => rw [hr] at h; cases h
          | ok rest =>
              rw [hr] at h
              cases h
              simp [classifyMsgOf_role pj m c hc, classifierTail_roles pj ms rest hr]

/-- A message list whose second entry has role `tool`. -/
def toolDemoMessages : List Message :=
  [⟨"user", "hi", none⟩, ⟨"tool", "tool result", none⟩]

/-- Counterexample to C2 as stated: on a request containing a tool-role
message, the message sequence that `get_user_intent` sends to the
classification model still contains that tool-role message (the loop in
intent_detection.py lines 51-68 filters by no role), so tool messages are
NOT excluded from the classification input. -/
theorem c2_counterexample :
    (buildClassifierMessages pjRefuse toolDemoMessages).toOption.map
        (fun l => l.map ClassifierMessage.role) =
      some ["system", "user", "tool"] := rfl

/-- C2 amended.  Tool-role messages are excluded from the Conversation
History rebuilt by `Chat.invoke` (whose entries are only system, assistant
and user messages), but `get_user_intent` forwards every inbound message -
tool-role ones included - to the classification model: on success, the
classifier input's roles are exactly the fixed system role followed by the
inbound roles, unfiltered. -/
theorem c2_tool_messages_history_only (pj : String → Except PyErr Json)
    (req : RequestBody) :
    (∀ hm ∈ Chat.rebuiltHistory req, hm.role ≠ "tool") ∧
    (∀ l, buildClassifierMessages pj req.messages = Except.ok l →
      l.map ClassifierMessage.role = "system" :: req.messages.map Message.role) := by
  constructor
  · intro hm hmem
    unfold Chat.rebuiltHistory at hmem
    rcases List.mem_cons.mp hmem with heq | htail
    · rw [heq]
      simp
    · rcases List.mem_filterMap.mp htail with ⟨m, _, hf⟩
      by_cases ha : m.role = "assistant"
      · rw [if_pos ha] at hf
        cases hf
        simp
      · rw [if_neg ha] at hf
        by_cases hu : m.role = "user"
        · rw [if_pos hu] at hf
          cases hf
          simp
        · rw [if_neg hu] at hf
          cases hf
  · intro l h
    unfold buildClassifierMessages at h
    cases ht : classifierTail pj req.messages with
    | error e => rw [ht] at h; cases h
    | ok rest =>
        rw [ht] at h
        cases h
        simp [classifierTail_roles pj req.messages rest ht]

/-- Witness for C2's amended theorem at a concrete input: on
`toolDemoMessages` the classifier input roles are the system role followed
by `user` and `tool`. -/
theorem c2_witness :
    List.map ClassifierMessage.role
        [⟨"system", system_instructions, none⟩, ⟨"user", "hi", none⟩,
          ⟨"tool", "tool result", none⟩] =
      "system" :: toolDemoMessages.map Message.role :=
  (c2_tool_messages_history_only pjRefuse ⟨toolDemoMessages, none⟩).2 _ rfl

/-- A `json.loads` oracle under which the model output parses to
`{"intent": "CREATE_TICKET"}`. -/
def pjCreateTicket : String → Except PyErr Json :=
  fun _ => Except.ok (Json.obj [("intent", Json.str "CREATE_TICKET")])

/-- A `json.loads` oracle under which the model output parses to
`{"intent": "ANSWER_QUESTION"}`. -/
def pjAnswerQuestion : String → Except PyErr Json :=
  fun _ => Except.ok (Json.obj [("intent", Json.str "ANSWER_QUESTION")])

/-- A model-call oracle that returns some content string. -/
def mcPlain : List ClassifierMessage → Except PyErr (Option String) :=
  fun _ => Except.ok (some "x")

/-- A request asking for a ticket. -/
def ticketRequest : RequestBody :=
  ⟨[⟨"user", "Please open a ticket for me", none⟩], some [("conversation_id", "1")]⟩

/-- Demo fragment stream of the externally supplied direct-answer path. -/
def directFrags : List Fragment :=
  [⟨"assistant", "direct answer", [("conversation_id", "1")], none⟩]

/-- Demo fragment stream the ticket session would produce. -/
def sessionFrags : List Fragment :=
  [⟨"assistant", "session answer", [("conversation_id", "1")], none⟩]

/-- C3, evaluated at the failing input.  When the detected intent is
`CREATE_TICKET`, `Orchestrator.run` does NOT return the Conversation
Session's fragment stream: its call `Chat.create("helpdesk_assistant")`
passes one positional argument to a method requiring three (`chat_id`,
`token_provider`, `search_service`), so the ticket path raises `TypeError`
(and the subsequent `chat.invoke(execution_settings, request_body,
system_message)` call would likewise pass three arguments to a method
taking one).  For any other intent, `run` does return the externally
supplied direct-answer stream unchanged. -/
theorem c3_run_ticket_path_type_error :
    Orchestrator.run pjCreateTicket mcPlain ticketRequest
        (Except.ok directFrags) (Except.ok sessionFrags) =
      Except.error PyErr.typeError ∧
    Orchestrator.run pjAnswerQuestion mcPlain ticketRequest
        (Except.ok directFrags) (Except.ok sessionFrags) =
      Except.ok directFrags :=
  ⟨rfl, rfl⟩

theorem fragmentOf_eq_some (meta : HistoryMetadata) (item : StreamItem) (f : Fragment)
    (h : Chat.fragmentOf meta item = some f) :
    ∃ m chunk, item = StreamItem.scmc m ∧ m.role = AuthorRole.assistant ∧
      m.innerContent = some chunk ∧ f = format_stream_response chunk meta none := by
  cases item with
  | otherContent => cases h
  | scmc m =>
      simp only [Chat.fragmentOf] at h
      by_cases hrole : m.role = AuthorRole.assistant
      · rw [if_pos hrole] at h
        cases hic : m.innerContent with
        | some chunk =>
            rw [hic] at h
            cases h
            exact ⟨m, chunk, rfl, hrole, hic, rfl⟩
        | none => rw [hic] at h; cases h
      · rw [if_neg hrole] at h
        cases h

theorem fragmentOf_metadata (meta : HistoryMetadata) (item : StreamItem) (f : Fragment)
    (h : Chat.fragmentOf meta item = some f) : f.history_metadata = meta := by
  rcases fragmentOf_eq_some meta item f h with ⟨m, chunk, _, _, _, hf⟩
  rw [hf]
  rfl

/-- A tool-call negotiation chunk as it appears on the stream: assistant
role, empty textual content, a pending function-call payload, and the raw
provider chunk present in `inner_content` (with no delta text). -/
def emptyContentToolCallItem : StreamItem :=
  StreamItem.scmc
    ⟨AuthorRole.assistant, "", ["helix_proxy_plugin-get_ticket_templates"], some ⟨none⟩⟩

/-- A request with a single user message. -/
def userOnlyReq : RequestBody :=
  ⟨[⟨"user", "hi", none⟩], some [("conversation_id", "1")]⟩

/-- An ordinary assistant answer chunk on the stream. -/
def answerItem : StreamItem :=
  StreamItem.scmc ⟨AuthorRole.assistant, "pong", [], some ⟨some "pong"⟩⟩

/-- Counterexample to C4 as stated: the guard in chat.py lines 228-232
checks `msg.inner_content` (the provider chunk), not that the content is
non-empty, so a tool-call negotiation chunk - assistant-authored, empty
content, carrying a pending function call, with `inner_content` present -
IS emitted, as a fragment whose content is empty. -/
theorem c4_counterexample :
    Chat.invoke userOnlyReq [emptyContentToolCallItem] =
      Except.ok [⟨"assistant", "", [("conversation_id", "1")], none⟩] := rfl

/-- C4 amended.  Every fragment yielded by `Chat.invoke` has author role
assistant, and comes from a stream message that is a
`StreamingChatMessageContent` with role assistant and a present provider
`inner_content`; the fragment's content is that chunk's delta text, which
may be empty - non-emptiness of the content is not checked and tool-call
negotiation chunks whose `inner_content` is present are not suppressed. -/
theorem c4_fragment_filter (req : RequestBody) (stream : List StreamItem)
    (frags : List Fragment) (f : Fragment)
    (hok : Chat.invoke req stream = Except.ok frags) (hf : f ∈ frags) :
    f.deltaRole = "assistant" ∧
    ∃ m chunk, StreamItem.scmc m ∈ stream ∧ m.role = AuthorRole.assistant ∧
      m.innerContent = some chunk ∧
      f = format_stream_response chunk (req.history_metadata.getD []) none := by
  unfold Chat.invoke at hok
  cases hui : Chat.userInput req with
  | error e => rw [hui] at hok; cases hok
  | ok s =>
      rw [hui] at hok
      cases hok
      rcases List.mem_filterMap.mp hf with ⟨item, hitem, hsome⟩
      rcases fragmentOf_eq_some _ item f hsome with ⟨m, chunk, hieq, hrole, hic, hfeq⟩
      refine ⟨by rw [hfeq]; rfl, m, chunk, ?_, hrole, hic, hfeq⟩
      rw [← hieq]
      exact hitem

/-- Witness for C4's amended theorem at a concrete input: the fragment
emitted for an ordinary assistant chunk has role assistant and reproduces
that chunk's delta text. -/
theorem c4_witness :
    (⟨"assistant", "pong", [("conversation_id", "1")], none⟩ : Fragment).deltaRole =
        "assistant" ∧
    ∃ m chunk, StreamItem.scmc m ∈ [answerItem] ∧ m.role = AuthorRole.assistant ∧
      m.innerContent = some chunk ∧
      (⟨"assistant", "pong", [("conversation_id", "1")], none⟩ : Fragment) =
        format_stream_response chunk (userOnlyReq.history_metadata.getD []) none :=
  c4_fragment_filter userOnlyReq [answerItem] _ _ rfl (by decide)

/-- C5.  In both `search` and `get_ticket_templates` (whenever the external
call returned at least one page, so that the functions return at all): a
document with a score below the configured minimum search-score threshold,
or a reranker score below the configured minimum reranker-score threshold,
is absent from the returned sequence; and a retrieved document whose scores
are at or above both thresholds is present - each direction independent of
the other threshold's value. -/
theorem c5_threshold_filter
    (minS minR : ℚ) (pages : List (List SearchDoc))
    (qualified : List SearchDoc) (d : SearchDoc)
    (tminS tminR : ℚ) (tpages : List (List TemplateDoc))
    (tqualified : List TemplateDoc) (t : TemplateDoc)
    (hp : pages ≠ [])
    (hq : AzureAISearchPlugin.searchInternal (some minS) (some minR) pages =
      Except.ok qualified)
    (htp : tpages ≠ [])
    (htq : HelixProxyPlugin.get_ticket_templates (some tminS) (some tminR) tpages =
      Except.ok tqualified) :
    ((∀ s, d.score = some s → s < minS → d ∉ qualified) ∧
     (∀ r, d.reranker_score = some r → r < minR → d ∉ qualified) ∧
     (d ∈ pages.flatten → minS ≤ pyOr0 d.score → minR ≤ pyOr0 d.reranker_score →
       d ∈ qualified)) ∧
    ((∀ s, t.score = some s → s < tminS → t ∉ tqualified) ∧
     (∀ r, t.reranker_score = some r → r < tminR → t ∉ tqualified) ∧
     (t ∈ tpages.flatten → tminS ≤ pyOr0 t.score → tminR ≤ pyOr0 t.reranker_score →
       t ∈ tqualified)) :=
  ⟨collectAndFilter_mem SearchDoc.score SearchDoc.reranker_score minS minR
      pages qualified d hp hq,
   collectAndFilter_mem TemplateDoc.score TemplateDoc.reranker_score tminS tminR
      tpages tqualified t htp htq⟩

/-- A retrieved knowledge document whose scores clear both thresholds. -/
def goodDoc : SearchDoc := ⟨some "doc-1", none, some "body", some "title", some 1, some 1⟩

/-- A retrieved ticket template whose scores clear both thresholds. -/
def goodTpl : TemplateDoc :=
  ⟨some "tpl-1", some "Template A", none, some "CLOUD", none, some "desc",
    some "detailed", none, none, none, none, some 1, some 1⟩

/-- Witness for C5 at a concrete input: with both thresholds 0, a document
and a template scoring 1 on both axes are present in the returned
sequences. -/
theorem c5_witness : goodDoc ∈ [goodDoc] ∧ goodTpl ∈ [goodTpl] := by
  have h := c5_threshold_filter 0 0 [[goodDoc]] [goodDoc] goodDoc
    0 0 [[goodTpl]] [goodTpl] goodTpl (by simp) rfl (by simp) rfl
  exact ⟨h.1.2.2 (by decide) (by decide) (by decide),
    h.2.2.2 (by decide) (by decide) (by decide)⟩

/-- C9.  When the external paged result contains zero pages, the per-page
loop never runs, `qualified_documents` is never assigned, and both
`__search_internal` and `get_ticket_templates` raise `UnboundLocalError`
at their `return` statement instead of returning an empty sequence - for
every threshold configuration. -/
theorem c9_zero_pages_unbound_local (minS minR : Option ℚ) :
    AzureAISearchPlugin.searchInternal minS minR [] =
      Except.error PyErr.unboundLocalError ∧
    HelixProxyPlugin.get_ticket_templates minS minR [] =
      Except.error PyErr.unboundLocalError :=
  ⟨rfl, rfl⟩

/-- A retrieved document with no `@search.score` and a reranker score of 1. -/
def missingScoreDoc : SearchDoc := ⟨some "doc-1", none, none, none, none, some 1⟩

/-- A ticket template with no `@search.score` and a reranker score of 1. -/
def missingScoreTpl : TemplateDoc :=
  ⟨some "tpl-1", some "Template A", none, some "CLOUD", none, none, none,
    none, none, none, none, none, some 1⟩

/-- Counterexample to C10 as stated: a document whose score is missing is
NOT always retained when the corresponding minimum search-score threshold
is 0 - here its reranker score 1 is below the reranker threshold 2, so the
document is dropped although its missing score was treated as 0 and
0 >= 0 held. -/
theorem c10_counterexample :
    missingScoreDoc.score = none ∧
    AzureAISearchPlugin.searchInternal (some 0) (some 2) [[missingScoreDoc]] =
      Except.ok [] :=
  ⟨rfl, rfl⟩

theorem collectAndFilter_missing_score {α : Type} (score reranker_score : α → Option ℚ)
    (minR : ℚ) (pages : List (List α)) (qualified : List α) (d : α)
    (hp : pages ≠ [])
    (hq : collectAndFilter score reranker_score (some 0) (some minR) pages =
      Except.ok qualified)
    (hd : d ∈ pages.flatten) (hs : score d = none) :
    d ∈ qualified ↔ minR ≤ pyOr0 (reranker_score d) := by
  rw [collectAndFilter_of_ne_nil score reranker_score _ _ pages hp] at hq
  have hqual : qualified = pages.flatten.filter
      (fun d => scoreQualifies (score d) (reranker_score d) (some 0) (some minR)) :=
    (Except.ok.injEq _ _).mp hq.symm
  subst hqual
  constructor
  · intro hmem
    rcases List.mem_filter.mp hmem with ⟨_, hqd⟩
    simp [scoreQualifies, pyOr0, hs] at hqd
    exact hqd
  · intro hr
    refine List.mem_filter.mpr ⟨hd, ?_⟩
    simp [scoreQualifies, pyOr0, hs]
    exact hr

theorem collectAndFilter_missing_reranker {α : Type} (score reranker_score : α → Option ℚ)
    (minS : ℚ) (pages : List (List α)) (qualified : List α) (d : α)
    (hp : pages ≠ [])
    (hq : collectAndFilter score reranker_score (some minS) (some 0) pages =
      Except.ok qualified)
    (hd : d ∈ pages.flatten) (hr : reranker_score d = none) :
    d ∈ qualified ↔ minS ≤ pyOr0 (score d) := by
  rw [collectAndFilter_of_ne_nil score reranker_score _ _ pages hp] at hq
  have hqual : qualified = pages.flatten.filter
      (fun d => scoreQualifies (score d) (reranker_score d) (some minS) (some 0)) :=
    (Except.ok.injEq _ _).mp hq.symm
  subst hqual
  constructor
  · intro hmem
    rcases List.mem_filter.mp hmem with ⟨_, hqd⟩
    simp [scoreQualifies, pyOr0, hr] at hqd
    exact hqd
  · intro hs
    refine List.mem_filter.mpr ⟨hd, ?_⟩
    simp [scoreQualifies, pyOr0, hr]
    exact hs

/-- C10 amended.  In both `search` and `get_ticket_templates`, the filter
treats a missing score or reranker score as 0, so when the corresponding
configured minimum threshold is 0 (the default) the missing value never
causes exclusion: a retrieved document with a missing score is retained
exactly when its other score meets the other threshold (and symmetrically
for a missing reranker score). -/
theorem c10_missing_score_as_zero
    (minS minR : ℚ)
    (pages : List (List SearchDoc)) (qualified : List SearchDoc) (d : SearchDoc)
    (tpages : List (List TemplateDoc)) (tqualified : List TemplateDoc) (t : TemplateDoc)
    (hp : pages ≠ []) (htp : tpages ≠ []) :
    (AzureAISearchPlugin.searchInternal (some 0) (some minR) pages = Except.ok qualified →
      d ∈ pages.flatten → d.score = none →
      (d ∈ qualified ↔ minR ≤ pyOr0 d.reranker_score)) ∧
    (AzureAISearchPlugin.searchInternal (some minS) (some 0) pages = Except.ok qualified →
      d ∈ pages.flatten → d.reranker_score = none →
      (d ∈ qualified ↔ minS ≤ pyOr0 d.score)) ∧
    (HelixProxyPlugin.get_ticket_templates (some 0) (some minR) tpages = Except.ok tqualified →
      t ∈ tpages.flatten → t.score = none →
      (t ∈ tqualified ↔ minR ≤ pyOr0 t.reranker_score)) ∧
    (HelixProxyPlugin.get_ticket_templates (some minS) (some 0) tpages = Except.ok tqualified →
      t ∈ tpages.flatten → t.reranker_score = none →
      (t ∈ tqualified ↔ minS ≤ pyOr0 t.score)) :=
  ⟨fun hq hd hs => collectAndFilter_missing_score _ _ minR pages qualified d hp hq hd hs,
   fun hq hd hr => collectAndFilter_missing_reranker _ _ minS pages qualified d hp hq hd hr,
   fun hq hd hs => collectAndFilter_missing_score _ _ minR tpages tqualified t htp hq hd hs,
   fun hq hd hr => collectAndFilter_missing_reranker _ _ minS tpages tqualified t htp hq hd hr⟩

/-- Witness for C10's amended theorem at a concrete input: with search
threshold 0 and reranker threshold 1, the document with a missing score and
reranker score 1 is retained exactly because its reranker score meets the
reranker threshold. -/
theorem c10_witness :
    missingScoreDoc ∈ [missingScoreDoc] ↔ (1 : ℚ) ≤ pyOr0 missingScoreDoc.reranker_score :=
  (c10_missing_score_as_zero 0 1 [[missingScoreDoc]] [missingScoreDoc] missingScoreDoc
    [[missingScoreTpl]] [missingScoreTpl] missingScoreTpl
    (by simp) (by simp)).1 rfl (by decide) rfl

/-- C6, evaluated at the failing input.  `create_ticket` never mutates
`template_name` (the payload forwards it verbatim), but the function is a
stub: the HTTP call is commented out, so every call - whatever the
description - returns the same hardcoded
`{"ticket_id": 12345, "status": "success"}` string without contacting the
ticketing system.  Two successive calls therefore do NOT produce
independent ticket ids, and the transport-failure handler that would
return `{"status": "error"}` is unreachable. -/
theorem c6_create_ticket_stub :
    HelixProxyPlugin.create_ticket "NetworkIssue" "first completed description" =
      "\x7b\"ticket_id\": 12345, \"status\": \"success\"\x7d" ∧
    HelixProxyPlugin.create_ticket "NetworkIssue" "second completed description" =
      HelixProxyPlugin.create_ticket "NetworkIssue" "first completed description" ∧
    HelixProxyPlugin.createTicketPayload "NetworkIssue" "first completed description" =
      [("description", "NetworkIssue")] :=
  ⟨rfl, rfl, rfl⟩

/-- A request whose only message is an assistant turn: it has no latest
user turn. -/
def assistantOnlyReq : RequestBody :=
  ⟨[⟨"assistant", "How can I help?", none⟩], some []⟩

/-- A request with an empty message list. -/
def emptyMessagesReq : RequestBody := ⟨[], some []⟩

/-- Counterexample to C7 as stated: on a request whose message list has no
latest user turn (its only message is an assistant turn), `Chat.invoke`
raises nothing at all - it silently uses the assistant message's content
as the user input and proceeds; and on an empty message list it raises a
generic `IndexError` from `filtered_messages[-1]`, not a defined "no user
input to process" condition. -/
theorem c7_counterexample :
    Chat.invoke assistantOnlyReq [] = Except.ok [] ∧
    Chat.invoke emptyMessagesReq [] = Except.error PyErr.indexError :=
  ⟨rfl, rfl⟩

/-- C7 amended.  When the inbound message list, after removing tool-role
messages, is empty, `Chat.invoke` raises a generic `IndexError` (from
`filtered_messages[-1]`) before any model generation call; when the
filtered list is non-empty, the content of its last message - whatever its
role - becomes the user input and `invoke` proceeds to stream. -/
theorem c7_empty_input_index_error (req : RequestBody) (stream : List StreamItem) :
    (Chat.filteredMessages req = [] →
      Chat.invoke req stream = Except.error PyErr.indexError) ∧
    (∀ m, (Chat.filteredMessages req).getLast? = some m →
      Chat.userInput req = Except.ok m.content ∧
      Chat.invoke req stream =
        Except.ok (stream.filterMap (Chat.fragmentOf (req.history_metadata.getD [])))) := by
  constructor
  · intro h
    simp [Chat.invoke, Chat.userInput, h]
  · intro m hm
    simp [Chat.invoke, Chat.userInput, hm]

/-- Witness for C7's amended theorem at a concrete input: a request ending
in a user turn yields that turn's content as the user input and streams. -/
theorem c7_witness :
    Chat.userInput userOnlyReq = Except.ok "hi" ∧
    Chat.invoke userOnlyReq [] =
      Except.ok (List.filterMap (Chat.fragmentOf (userOnlyReq.history_metadata.getD [])) []) :=
  (c7_empty_input_index_error userOnlyReq []).2 ⟨"user", "hi", none⟩ rfl

/-- C8.  Every fragment emitted by `Chat.invoke` for one request carries
exactly the request body's `history_metadata` mapping. -/
theorem c8_history_metadata_preserved (req : RequestBody) (stream : List StreamItem)
    (frags : List Fragment) (meta : HistoryMetadata) (f : Fragment)
    (hmeta : req.history_metadata = some meta)
    (hok : Chat.invoke req stream = Except.ok frags) (hf : f ∈ frags) :
    f.history_metadata = meta := by
  unfold Chat.invoke at hok
  cases hui : Chat.userInput req with
  | error e => rw [hui] at hok; cases hok
  | ok s =>
      rw [hui] at hok
      cases hok
      rcases List.mem_filterMap.mp hf with ⟨item, _, hsome⟩
      have hfm := fragmentOf_metadata _ item f hsome
      rw [hmeta] at hfm
      exact hfm

/-- Witness for C8 at a concrete input: the fragment emitted for an
assistant chunk carries the request's `history_metadata` verbatim. -/
theorem c8_witness :
    (⟨"assistant", "pong", [("conversation_id", "1")], none⟩ : Fragment).history_metadata =
      [("conversation_id", "1")] :=
  c8_history_metadata_preserved userOnlyReq [answerItem] _ [("conversation_id", "1")]
    ⟨"assistant", "pong", [("conversation_id", "1")], none⟩ rfl rfl (by decide)
